import Mathlib

/-!
Verification development for the Roo-web-socket bridge
(`telegram_notification_system.py` and `run_bot.py`).

The Python dictionaries `task_to_chat_mapping` (task id -> chat id) and
`pending_telegram_responses` (chat id -> pending task id) are embedded as
insertion-ordered association lists with Python-dict semantics: an update
keeps the original position of the key, a fresh key is appended, and
iteration (`for k, v in d.items()`) visits entries in that order.
-/

section Dict

variable {κ α : Type} [DecidableEq κ]

/-- Lookup of a key in an insertion-ordered association list (`d.get(k)` /
`d[k]` on a Python dict whose keys are unique). -/
def dictLookup (k : κ) : List (κ × α) → Option α
  | [] => none
  | (k', v) :: rest => if k' = k then some v else dictLookup k rest

/-- `d[k] = v` on a Python dict: replace in place if the key is present,
append otherwise. -/
def dictInsert (k : κ) (v : α) : List (κ × α) → List (κ × α)
  | [] => [(k, v)]
  | (k', v') :: rest => if k' = k then (k, v) :: rest else (k', v') :: dictInsert k v rest

/-- `d.pop(k)` / `del d[k]` on a Python dict: drop the (first) entry with
this key. -/
def dictErase (k : κ) : List (κ × α) → List (κ × α)
  | [] => []
  | (k', v') :: rest => if k' = k then rest else (k', v') :: dictErase k rest

/-- Well-formedness of the association-list embedding: keys are unique,
as they are in a real Python dict. -/
def keysNodup (d : List (κ × α)) : Prop := (d.map Prod.fst).Nodup

instance (d : List (κ × α)) : Decidable (keysNodup d) := by
  unfold keysNodup; infer_instance

end Dict

/-!
Embedding of the Python primitives used by `_load_registrations`:
`str(v)` on ints and bools, `str.isdigit()`, and `int(v)` on digit strings.
-/

/-- The decimal digit character for `d < 10` (ASCII `'0' + d`). -/
def digitChar (d : Nat) : Char := Char.ofNat (48 + d)

/-- Little-endian decimal digits of `n`, with explicit fuel (the fuel `n`
itself is always enough, since each step divides by 10). -/
def natDigitsAux : Nat → Nat → List Char
  | 0, _ => []
  | _ + 1, 0 => []
  | f + 1, n + 1 => digitChar ((n + 1) % 10) :: natDigitsAux f ((n + 1) / 10)

/-- Decimal rendering of a natural number, as Python's `str` produces it. -/
def natDigits (n : Nat) : String :=
  if n = 0 then "0" else String.mk (natDigitsAux n n).reverse

/-- Python `str(v)` for an `int` value `v`. -/
def pyStrOfInt (v : Int) : String :=
  if v < 0 then "-" ++ natDigits v.natAbs else natDigits v.natAbs

/-- Python `str(v)` for a `bool` value. -/
def pyStrOfBool : Bool → String
  | true => "True"
  | false => "False"

/-- Python `s.isdigit()` restricted to ASCII content: true iff the string is
non-empty and every character is a decimal digit. -/
def pyIsdigit (s : String) : Bool := !s.data.isEmpty && s.data.all Char.isDigit

/-- Python `int(s)` on a string of decimal digits. -/
def pyIntOfDigits (s : String) : Int :=
  Int.ofNat (s.data.foldl (fun a c => a * 10 + (c.toNat - 48)) 0)

/-!
`_load_registrations` (telegram_notification_system.py, lines 335-361):
the registration file is parsed with `json.load`; a decode error, a read
failure or a missing file yields an empty mapping (modelled as `none`
input), non-dict content yields an empty mapping, and a dict is filtered by
`isinstance(k, str) and isinstance(v, (int, str)) and str(v).isdigit()`
(keys of a decoded JSON object are always strings; Python's `bool` is a
subclass of `int`, so `True`/`False` reach the `str(v).isdigit()` test and
fail it).
-/

/-- A JSON value as `json.load` can produce it. -/
inductive PyJson where
  | null
  | bool (b : Bool)
  | int (n : Int)
  | float
  | str (s : String)
  | list (xs : List PyJson)
  | obj (kvs : List (String × PyJson))

/-- Whether a decoded JSON value is a dict. -/
def jsonIsObj : PyJson → Bool
  | .obj _ => true
  | _ => false

/-- The per-entry filter and conversion of the dict comprehension in
`_load_registrations`: keep the entry iff
`isinstance(v, (int, str)) and str(v).isdigit()`, converting with `int(v)`. -/
def loadEntry (k : String) (v : PyJson) : Option (String × Int) :=
  match v with
  | .bool b => if pyIsdigit (pyStrOfBool b) then some (k, if b then 1 else 0) else none
  | .int n => if pyIsdigit (pyStrOfInt n) then some (k, n) else none
  | .str s => if pyIsdigit s then some (k, pyIntOfDigits s) else none
  | _ => none

/-- `RooCodeNotificationSystem._load_registrations`: the in-memory mapping
produced from the durable registration file. `none` models a missing file,
a JSON decode error or a read failure. -/
def load_registrations (input : Option PyJson) : List (String × Int) :=
  match input with
  | none => []
  | some (.obj kvs) => kvs.filterMap (fun p => loadEntry p.1 p.2)
  | some _ => []

/-!
Message formatting of `process_incoming_websocket_notification`
(telegram_notification_system.py, lines 151-170).
-/

/-- A suggestion item as received from the editor: either a dict exposing a
`"suggest"` field (whose rendered text is carried), or any other value
(carried as its `str(...)` rendering). -/
inductive Suggestion where
  | withSuggest (text : String)
  | plain (repr : String)
deriving DecidableEq

/-- The text chosen for a suggestion: `sug['suggest']` when the item is a
dict with that key, `str(sug)` otherwise. -/
def sugText : Suggestion → String
  | .withSuggest t => t
  | .plain r => r

/-- One numbered suggestion line, `f"\n{i+1}. {sug_text}"`. -/
def numberedLine (n : Nat) (s : Suggestion) : String :=
  "\n" ++ natDigits n ++ ". " ++ sugText s

/-- The concatenation of the numbered suggestion lines, starting at
enumerate index `i` (so the first produced line is numbered `i + 1`). -/
def suggestionsBlock : Nat → List Suggestion → String
  | _, [] => ""
  | i, s :: rest => numberedLine (i + 1) s ++ suggestionsBlock (i + 1) rest

/-- The full Telegram message formatted for a question. `suggestions` is
`some l` when the payload's `suggestions` field is a list, `none` when it
is absent, `None`, or not a list (all falsy or non-list in the Python
check `if suggestions and isinstance(suggestions, list)`). -/
def formatQuestionMessage (task_id question : String)
    (suggestions : Option (List Suggestion)) : String :=
  let base := "Roo-Code Task (" ++ task_id.take 8 ++ "...):\n\n" ++ question
  match suggestions with
  | some l =>
    if l.isEmpty then base ++ "\n\nPlease reply with your answer."
    else (base ++ "\n\nSuggestions:" ++ suggestionsBlock 0 l)
      ++ "\n\nPlease reply with your answer."
  | none => base ++ "\n\nPlease reply with your answer."

/-- `needle` occurs contiguously inside `hay`. -/
def strContains (hay needle : String) : Prop :=
  ∃ pre post : List Char, hay.data = pre ++ needle.data ++ post

/-- `hay` ends with `needle`. -/
def strEndsWith (hay needle : String) : Prop :=
  ∃ pre : List Char, hay.data = pre ++ needle.data

/-!
The reply envelope and its `json.dumps` serialization (default options:
`ensure_ascii=True`, separators `", "` and `": "`, dict insertion order
`type`, `taskId`, `reply`).
-/

/-- The `ReplyMessage` payload built by `handle_telegram_response`. -/
structure ReplyMessage where
  type : String
  taskId : String
  reply : String
deriving DecidableEq

/-- A hexadecimal digit character, lowercase, as CPython's encoder emits. -/
def jsonHexDigit (n : Nat) : Char :=
  if n < 10 then Char.ofNat (48 + n) else Char.ofNat (87 + n)

/-- Four hex digits of a code unit below 0x10000. -/
def jsonHex4 (n : Nat) : String :=
  String.mk [jsonHexDigit (n / 4096 % 16), jsonHexDigit (n / 256 % 16),
    jsonHexDigit (n / 16 % 16), jsonHexDigit (n % 16)]

/-- CPython's `json` string escaping with `ensure_ascii=True`: printable
ASCII passes through, the two-character escapes are used where defined, and
everything else becomes a `\uXXXX` escape (a surrogate pair above 0xFFFF). -/
def jsonEscapeChar (c : Char) : String :=
  if c = '"' then "\\\""
  else if c = '\\' then "\\\\"
  else if c.toNat = 8 then "\\b"
  else if c.toNat = 9 then "\\t"
  else if c.toNat = 10 then "\\n"
  else if c.toNat = 12 then "\\f"
  else if c.toNat = 13 then "\\r"
  else if 32 ≤ c.toNat ∧ c.toNat ≤ 126 then String.mk [c]
  else if c.toNat < 65536 then "\\u" ++ jsonHex4 c.toNat
  else "\\u" ++ jsonHex4 (55296 + (c.toNat - 65536) / 1024)
    ++ "\\u" ++ jsonHex4 (56320 + (c.toNat - 65536) % 1024)

/-- A JSON string literal for `s`. -/
def jsonQuote (s : String) : String :=
  "\"" ++ String.join (s.data.map jsonEscapeChar) ++ "\""

/-- `json.dumps(reply_payload)` for the three-field reply dict. -/
def pyJsonDumps (m : ReplyMessage) : String :=
  "\x7b" ++ jsonQuote "type" ++ ": " ++ jsonQuote m.type
    ++ ", " ++ jsonQuote "taskId" ++ ": " ++ jsonQuote m.taskId
    ++ ", " ++ jsonQuote "reply" ++ ": " ++ jsonQuote m.reply ++ "\x7d"

/-!
The system state. `WsState` models the socket side of `run_bot.py`:
`active` is whether the global `active_websocket` slot holds a connection,
`connClosed` is whether a send on that connection raises a
`ConnectionClosed` error, and `sent` records the text frames that were
delivered. `SysState` bundles it with the two dictionaries of
`RooCodeNotificationSystem`, the Telegram messages that were delivered,
and the durable registration file contents.
-/

structure WsState where
  active : Bool
  connClosed : Bool
  sent : List String
deriving DecidableEq

structure SysState where
  task_to_chat_mapping : List (String × Int)
  pending_telegram_responses : List (Int × String)
  tgSent : List (Int × String)
  disk : List (String × Int)
  ws : WsState
deriving DecidableEq

/-- Outcome of one `bot.send_message` call on the Telegram transport:
delivered, `telegram.error.Forbidden` (bot blocked / chat not found), or
any other exception. -/
inductive TgOutcome where
  | ok
  | forbidden
  | otherError
deriving DecidableEq

/-- `_save_registrations`: write the mapping to the registration file;
a failure is logged only and leaves the in-memory state untouched. -/
def save_registrations (st : SysState) (persistOk : Bool) : SysState :=
  if persistOk then { st with disk := st.task_to_chat_mapping } else st

/-- `register_task_for_chat` (lines 87-91): unconditional upsert of the
task binding, then a best-effort persist. -/
def register_task_for_chat (st : SysState) (task_id : String) (chat_id : Int)
    (persistOk : Bool) : SysState :=
  save_registrations
    { st with task_to_chat_mapping := dictInsert task_id chat_id st.task_to_chat_mapping }
    persistOk

/-- `unregister_task` (lines 93-105): pop the binding if present, persist,
and clear the pending entry of the freed chat when it references exactly
this task; report whether a removal happened. -/
def unregister_task (st : SysState) (task_id : String) (persistOk : Bool) :
    SysState × Bool :=
  match dictLookup task_id st.task_to_chat_mapping with
  | none => (st, false)
  | some removed_chat_id =>
    let st1 := { st with
      task_to_chat_mapping := dictErase task_id st.task_to_chat_mapping }
    let st2 := save_registrations st1 persistOk
    if dictLookup removed_chat_id st2.pending_telegram_responses = some task_id then
      ({ st2 with pending_telegram_responses :=
          dictErase removed_chat_id st2.pending_telegram_responses }, true)
    else (st2, true)

/-- `send_telegram_message` (lines 107-127): deliver the text on success;
on `Forbidden`, reverse-look-up the first task bound to this chat in
insertion order and unregister it; on any other error just report failure. -/
def send_telegram_message (st : SysState) (chat_id : Int) (message : String)
    (outcome : TgOutcome) (persistOk : Bool) : SysState × Bool :=
  match outcome with
  | .ok => ({ st with tgSent := st.tgSent ++ [(chat_id, message)] }, true)
  | .forbidden =>
    match st.task_to_chat_mapping.find? (fun q => q.2 == chat_id) with
    | some fp => ((unregister_task st fp.1 persistOk).1, false)
    | none => (st, false)
  | .otherError => (st, false)

/-- `process_incoming_websocket_notification` (lines 130-173): resolve the
chat via `task_to_chat_mapping.get(task_id)`; `if not chat_id:` discards
both an absent binding and a binding to chat id `0` (falsy in Python);
otherwise record the pending question and then attempt the Telegram send. -/
def process_incoming_websocket_notification (st : SysState) (task_id question : String)
    (suggestions : Option (List Suggestion)) (outcome : TgOutcome) (persistOk : Bool) :
    SysState :=
  match dictLookup task_id st.task_to_chat_mapping with
  | none => st
  | some chat_id =>
    if chat_id = 0 then st
    else
      let st1 := { st with
        pending_telegram_responses := dictInsert chat_id task_id st.pending_telegram_responses }
      (send_telegram_message st1 chat_id
        (formatQuestionMessage task_id question suggestions) outcome persistOk).1

/-!
The reply path. `send_websocket_message` (run_bot.py, lines 69-89) is the
function injected as `websocket_send_func`: it catches the
`ConnectionClosed` family and every other exception, and merely logs when
no connection is active — so it never raises to its caller. The second
component of its result records whether the call raised (always `false`).
`handle_telegram_response` (telegram_notification_system.py, lines
176-220) is modelled generically in the injected send function so that its
`except` branch (restore the pending entry, notify the user) is represented
faithfully, and then instantiated with the deployed send function.
-/

/-- `run_bot.send_websocket_message`: deliver the frame when a live
connection is active; swallow (log-only) the no-connection case, the
`ConnectionClosed` errors, and any other exception. -/
def send_websocket_message (ws : WsState) (message_str : String) : WsState × Bool :=
  if ws.active then
    if ws.connClosed then (ws, false)
    else ({ ws with sent := ws.sent ++ [message_str] }, false)
  else (ws, false)

/-- `handle_telegram_response`, generic in the injected
`websocket_send_func` (second result component of `sendFunc` = "the call
raised"). Pops the pending entry, sends the serialized reply envelope, and
on a raised send restores the pending entry and notifies the user. -/
def handle_telegram_response (sendFunc : WsState → String → WsState × Bool)
    (st : SysState) (chat_id : Int) (response_text : String)
    (tgOutcome : TgOutcome) (persistOk : Bool) : SysState × Bool :=
  match dictLookup chat_id st.pending_telegram_responses with
  | none => (st, false)
  | some task_id =>
    let st1 := { st with
      pending_telegram_responses := dictErase chat_id st.pending_telegram_responses }
    let payload := pyJsonDumps { type := "reply", taskId := task_id, reply := response_text }
    let sr := sendFunc st1.ws payload
    let st2 := { st1 with ws := sr.1 }
    if sr.2 then
      let st3 := { st2 with
        pending_telegram_responses := dictInsert chat_id task_id st2.pending_telegram_responses }
      ((send_telegram_message st3 chat_id
        ("Error: Could not deliver your response for Task '" ++ task_id.take 8
          ++ "...'. An unexpected error occurred.") tgOutcome persistOk).1, false)
    else (st2, true)

/-- The reply router as deployed: `handle_telegram_response` with
`run_bot.send_websocket_message` injected as `websocket_send_func`. -/
def handle_telegram_response_deployed (st : SysState) (chat_id : Int)
    (response_text : String) (tgOutcome : TgOutcome) (persistOk : Bool) : SysState × Bool :=
  handle_telegram_response send_websocket_message st chat_id response_text tgOutcome persistOk

/-!
The socket read loop of `websocket_handler` (run_bot.py, lines 22-67).
-/

/-- One decoded inbound frame; each field is `none` when `message.get(...)`
returns `None`. -/
structure WireFrame where
  type? : Option String
  taskId? : Option String
  question? : Option String
  suggestions? : Option (List Suggestion)
deriving DecidableEq

/-- Python truthiness of `message.get(field)` for a string field: `None`
and the empty string are falsy. -/
def pyTruthy : Option String → Bool
  | none => false
  | some s => !s.data.isEmpty

/-- Processing of one parsed frame inside the read loop (lines 36-51): a
`"followup"` frame with truthy `taskId` and `question` is forwarded to the
notification system (which is set up before the server starts); everything
else is logged and dropped, and the loop continues. -/
def websocket_handle_frame (st : SysState) (f : WireFrame)
    (outcome : TgOutcome) (persistOk : Bool) : SysState :=
  if f.type? = some "followup" then
    if pyTruthy f.taskId? && pyTruthy f.question? then
      process_incoming_websocket_notification st (f.taskId?.getD "") (f.question?.getD "")
        f.suggestions? outcome persistOk
    else st
  else st

/-- Why the read loop of the active connection ended. -/
inductive TermReason where
  | normalClose
  | connError
  | unexpected
deriving DecidableEq

/-- Entry of `websocket_handler` for a new connection `w` (lines 24-31):
when the single `active_websocket` slot is occupied the new connection is
closed with reason "Already connected" and the slot is untouched; otherwise
`w` is stored. The second result component is whether `w` was accepted. -/
def ws_handler_connect (slot : Option Nat) (w : Nat) : Option Nat × Bool :=
  match slot with
  | some a => (some a, false)
  | none => (some w, true)

/-- The `finally` block of `websocket_handler` (lines 64-67), reached on
normal close, connection error, or any unexpected exception of the read
loop: clear the slot if it still holds this connection. -/
def ws_handler_disconnect (slot : Option Nat) (w : Nat) (_reason : TermReason) :
    Option Nat :=
  if slot = some w then none else slot

/-- A sequence of `register(t, c)` calls for one task id, each with its own
persist outcome. -/
def registerSeq (st : SysState) (task_id : String) (calls : List (Int × Bool)) : SysState :=
  calls.foldl (fun s cp => register_task_for_chat s task_id cp.1 cp.2) st

/-!
Concrete states used by the witnesses and counterexamples below.
-/

/-- Pending question for chat 555, no live socket connection. -/
def replyFailureState : SysState :=
  { task_to_chat_mapping := [("abc123", 555)],
    pending_telegram_responses := [(555, "abc123")],
    tgSent := [], disk := [],
    ws := { active := false, connClosed := false, sent := [] } }

/-- A task registered to chat id 0. -/
def chatZeroState : SysState :=
  { task_to_chat_mapping := [("t", 0)], pending_telegram_responses := [], tgSent := [],
    disk := [], ws := { active := false, connClosed := false, sent := [] } }

/-- A task registered to chat id 5, nothing pending. -/
def regFiveState : SysState :=
  { task_to_chat_mapping := [("t", 5)], pending_telegram_responses := [], tgSent := [],
    disk := [], ws := { active := false, connClosed := false, sent := [] } }

/-- The suggestion list of the spec's scenario. -/
def demoSuggestions : List Suggestion := [Suggestion.plain "yes", Suggestion.plain "no"]

/-- Pending question for chat 555 with a live, healthy socket connection. -/
def activeReplyState : SysState :=
  { task_to_chat_mapping := [("abc123", 555)], pending_telegram_responses := [(555, "abc123")],
    tgSent := [], disk := [], ws := { active := true, connClosed := false, sent := [] } }

/-- Task "t1" bound to chat 5 with a pending question referencing it. -/
def unregisterDemoState : SysState :=
  { task_to_chat_mapping := [("t1", 5)], pending_telegram_responses := [(5, "t1")],
    tgSent := [], disk := [], ws := { active := false, connClosed := false, sent := [] } }

/-- Two tasks bound to the same chat 7. -/
def forbiddenDemoState : SysState :=
  { task_to_chat_mapping := [("a", 7), ("b", 7)], pending_telegram_responses := [],
    tgSent := [], disk := [], ws := { active := false, connClosed := false, sent := [] } }

/-- A followup frame whose `question` field is present but empty. -/
def missingQuestionFrame : WireFrame :=
  { type? := some "followup", taskId? := some "task-1", question? := some "",
    suggestions? := none }

/-!
Association-list lemmas.
-/

section DictLemmas

variable {κ α : Type} [DecidableEq κ]

theorem dictLookup_insert_self (k : κ) (v : α) (d : List (κ × α)) :
    dictLookup k (dictInsert k v d) = some v := by
  induction d with
  | nil => simp [dictInsert, dictLookup]
  | cons p rest ih =>
    by_cases h : p.1 = k
    · simp [dictInsert, dictLookup, h]
    · simp [dictInsert, dictLookup, h, ih]

theorem dictLookup_insert_ne (k k' : κ) (v : α) (d : List (κ × α)) (hne : k' ≠ k) :
    dictLookup k' (dictInsert k v d) = dictLookup k' d := by
  have hkk : k ≠ k' := Ne.symm hne
  induction d with
  | nil => simp [dictInsert, dictLookup, hkk]
  | cons p rest ih =>
    by_cases h : p.1 = k
    · simp [dictInsert, dictLookup, h, hkk]
    · by_cases h2 : p.1 = k'
      · simp [dictInsert, dictLookup, h, h2, hne]
      · simp [dictInsert, dictLookup, h, h2, ih]

theorem dictLookup_eq_none_of_not_mem (k : κ) (d : List (κ × α))
    (h : k ∉ d.map Prod.fst) : dictLookup k d = none := by
  induction d with
  | nil => rfl
  | cons p rest ih =>
    have h1 : p.1 ≠ k := by
      intro hh
      exact h (by simp [hh])
    have h2 : k ∉ rest.map Prod.fst := by
      intro hh
      exact h (by simp [hh])
    simp [dictLookup, h1, ih h2]

theorem dictLookup_erase_ne (k k' : κ) (d : List (κ × α)) (hne : k' ≠ k) :
    dictLookup k' (dictErase k d) = dictLookup k' d := by
  induction d with
  | nil => simp [dictErase]
  | cons p rest ih =>
    by_cases h : p.1 = k
    · have h2 : p.1 ≠ k' := by
        rw [h]
        exact Ne.symm hne
      simp [dictErase, dictLookup, h, h2, Ne.symm hne]
    · by_cases h2 : p.1 = k'
      · simp [dictErase, dictLookup, h, h2, hne]
      · simp [dictErase, dictLookup, h, h2, ih]

theorem dictLookup_erase_self (k : κ) (d : List (κ × α)) (hwf : keysNodup d) :
    dictLookup k (dictErase k d) = none := by
  induction d with
  | nil => rfl
  | cons p rest ih =>
    have hwf2 : (p.1 :: rest.map Prod.fst).Nodup := hwf
    by_cases h : p.1 = k
    · subst h
      simp only [dictErase, if_pos rfl]
      exact dictLookup_eq_none_of_not_mem _ _ (List.nodup_cons.mp hwf2).1
    · simp only [dictErase, if_neg h, dictLookup, ih (List.nodup_cons.mp hwf2).2]

theorem dictLookup_of_mem (k : κ) (v : α) (d : List (κ × α))
    (hwf : keysNodup d) (hmem : (k, v) ∈ d) : dictLookup k d = some v := by
  induction d with
  | nil => cases hmem
  | cons p rest ih =>
    have hwf2 : (p.1 :: rest.map Prod.fst).Nodup := hwf
    rcases List.mem_cons.mp hmem with h | h
    · subst h
      simp [dictLookup]
    · have hk : p.1 ≠ k := by
        intro hh
        have hm : k ∈ rest.map Prod.fst := by
          have := List.mem_map_of_mem Prod.fst h
          simpa using this
        rw [hh] at hwf2
        exact (List.nodup_cons.mp hwf2).1 hm
      simp only [dictLookup, if_neg hk]
      exact ih (List.nodup_cons.mp hwf2).2 h

end DictLemmas

/-!
Lemmas on the decimal rendering and the digit test.
-/

theorem digitChar_isDigit : ∀ d, d < 10 → (digitChar d).isDigit = true := by decide

theorem natDigitsAux_all_digits :
    ∀ f n, (natDigitsAux f n).all Char.isDigit = true := by
  intro f
  induction f with
  | zero => intro n; rfl
  | succ f ih =>
    intro n
    cases n with
    | zero => rfl
    | succ m =>
      simp only [natDigitsAux, List.all_cons, Bool.and_eq_true]
      exact ⟨digitChar_isDigit _ (Nat.mod_lt _ (by decide)), ih _⟩

theorem natDigitsAux_ne_nil (f n : Nat) (hf : 0 < f) (hn : 0 < n) :
    natDigitsAux f n ≠ [] := by
  cases f with
  | zero => cases hf
  | succ f =>
    cases n with
    | zero => cases hn
    | succ m => simp [natDigitsAux]

theorem pyIsdigit_natDigits (n : Nat) : pyIsdigit (natDigits n) = true := by
  by_cases h : n = 0
  · subst h; rfl
  · have hpos : 0 < n := Nat.pos_of_ne_zero h
    have hne : natDigitsAux n n ≠ [] := natDigitsAux_ne_nil n n hpos hpos
    have hall : (natDigitsAux n n).all Char.isDigit = true := natDigitsAux_all_digits n n
    simp only [natDigits, if_neg h, pyIsdigit, Bool.and_eq_true, Bool.not_eq_true']
    constructor
    · simpa [List.isEmpty_iff] using hne
    · simpa [List.all_eq_true] using fun c hc => (List.all_eq_true.mp hall) c hc

/-- `str(v).isdigit()` on a Python int succeeds exactly for the
non-negative ints: a negative value renders with a leading `'-'`. -/
theorem pyIsdigit_pyStrOfInt (v : Int) : pyIsdigit (pyStrOfInt v) = decide (0 ≤ v) := by
  by_cases h : v < 0
  · have : ¬ (0 ≤ v) := by omega
    simp only [pyStrOfInt, if_pos h, this, decide_eq_false]
    have hdata : ("-" ++ natDigits v.natAbs).data = '-' :: (natDigits v.natAbs).data := rfl
    simp [pyIsdigit, hdata, Char.isDigit]
  · have : 0 ≤ v := by omega
    simp only [pyStrOfInt, if_neg h, this, decide_eq_true]
    exact pyIsdigit_natDigits v.natAbs

/-!
Substring lemmas.
-/

theorem str_data_append (a b : String) : (a ++ b).data = a.data ++ b.data := rfl

theorem strContains_refl (s : String) : strContains s s :=
  ⟨[], [], by simp⟩

theorem strContains_appendL {a n : String} (b : String) (h : strContains a n) :
    strContains (a ++ b) n := by
  obtain ⟨p, q, hd⟩ := h
  exact ⟨p, q ++ b.data, by rw [str_data_append, hd]; simp⟩

theorem strContains_appendR {b n : String} (a : String) (h : strContains b n) :
    strContains (a ++ b) n := by
  obtain ⟨p, q, hd⟩ := h
  exact ⟨a.data ++ p, q, by rw [str_data_append, hd]; simp⟩

theorem strEndsWith_append (a b : String) : strEndsWith (a ++ b) b :=
  ⟨a.data, str_data_append a b⟩

/-- Every numbered line of a suggestion list occurs in its block: the `j`-th
suggestion (0-based) of a block starting at enumerate index `i` appears as
the line numbered `i + j + 1`. -/
theorem suggestionsBlock_contains :
    ∀ (l : List Suggestion) (i j : Nat) (h : j < l.length),
      strContains (suggestionsBlock i l) (numberedLine (i + j + 1) (l.get ⟨j, h⟩)) := by
  intro l
  induction l with
  | nil => intro i j h; cases h
  | cons s rest ih =>
    intro i j h
    cases j with
    | zero =>
      simp only [suggestionsBlock, List.get]
      exact strContains_appendL _ (strContains_refl _)
    | succ j2 =>
      simp only [suggestionsBlock, List.get]
      have harith : i + (j2 + 1) + 1 = (i + 1) + j2 + 1 := by omega
      rw [harith]
      exact strContains_appendR _ (ih (i + 1) j2 (Nat.lt_of_succ_lt_succ h))

/-!
Helper lemmas on `unregister_task`.
-/

theorem unregister_task_mapping (st : SysState) (t : String) (p : Bool) (c : Int)
    (h : dictLookup t st.task_to_chat_mapping = some c) :
    (unregister_task st t p).1.task_to_chat_mapping = dictErase t st.task_to_chat_mapping
    ∧ (unregister_task st t p).2 = true := by
  unfold unregister_task
  rw [h]
  by_cases hcp : dictLookup c st.pending_telegram_responses = some t
  all_goals cases p <;> simp [save_registrations, hcp]

theorem unregister_task_pending (st : SysState) (t : String) (p : Bool) (c : Int)
    (h : dictLookup t st.task_to_chat_mapping = some c) :
    (unregister_task st t p).1.pending_telegram_responses
      = if dictLookup c st.pending_telegram_responses = some t
        then dictErase c st.pending_telegram_responses
        else st.pending_telegram_responses := by
  unfold unregister_task
  rw [h]
  by_cases hcp : dictLookup c st.pending_telegram_responses = some t
  all_goals cases p <;> simp [save_registrations, hcp]

/-!
Claim theorems.
-/

/-- Claim C1. The claim states that a failed socket dispatch of a reply
(no connection, or a connection-closed error during send) restores the
popped pending entry, notifies the human of the failure, and makes the
router report failure. In the deployed composition this does not happen:
`run_bot.send_websocket_message` swallows exactly those failures, so
`handle_telegram_response` takes its success path. Evaluated at the
failing input — pending entry (555 -> "abc123"), no active connection,
reply "Hello" — the router reports success, the pending entry stays
cleared, no frame was delivered, and no Telegram notice is sent. -/
theorem deployed_reply_send_failure_reports_success :
    (handle_telegram_response_deployed replyFailureState 555 "Hello" TgOutcome.ok true).2 = true
    ∧ (handle_telegram_response_deployed replyFailureState 555 "Hello"
        TgOutcome.ok true).1.pending_telegram_responses = []
    ∧ (handle_telegram_response_deployed replyFailureState 555 "Hello"
        TgOutcome.ok true).1.ws.sent = []
    ∧ (handle_telegram_response_deployed replyFailureState 555 "Hello"
        TgOutcome.ok true).1.tgSent = [] :=
  ⟨rfl, rfl, rfl, rfl⟩

/-- Claim C2, counterexample. The claim says an inbound question is
discarded exactly when its task has no entry in the registration store,
and that a task registered to any integer chat id — including 0 — gets a
pending entry. With task "t" registered to chat 0, the question is
discarded with no state change (Python's `if not chat_id:` treats 0 as
absent), so no pending entry is written. -/
theorem process_notification_chat_zero_discarded :
    dictLookup "t" chatZeroState.task_to_chat_mapping = some 0
    ∧ process_incoming_websocket_notification chatZeroState "t" "q" none TgOutcome.ok true
        = chatZeroState :=
  ⟨by decide, by decide⟩

/-- Claim C2, amended: an inbound question is discarded with no state
change exactly when the task id has no entry or is bound to chat id 0;
whenever it is bound to a nonzero chat id (negative included), the pending
entry for that chat is set to the task id before the outbound chat send is
attempted (the send runs on the state that already holds the entry,
whatever the send's outcome). -/
theorem process_notification_discard_and_set :
    (∀ (st : SysState) (t q : String) (s : Option (List Suggestion)) (o : TgOutcome) (p : Bool),
      dictLookup t st.task_to_chat_mapping = none →
      process_incoming_websocket_notification st t q s o p = st)
    ∧ (∀ (st : SysState) (t q : String) (s : Option (List Suggestion)) (o : TgOutcome) (p : Bool),
      dictLookup t st.task_to_chat_mapping = some 0 →
      process_incoming_websocket_notification st t q s o p = st)
    ∧ (∀ (st : SysState) (t q : String) (s : Option (List Suggestion)) (o : TgOutcome) (p : Bool)
        (c : Int), dictLookup t st.task_to_chat_mapping = some c → c ≠ 0 →
      dictLookup c (dictInsert c t st.pending_telegram_responses) = some t
      ∧ process_incoming_websocket_notification st t q s o p
        = (send_telegram_message
            { st with pending_telegram_responses := dictInsert c t st.pending_telegram_responses }
            c (formatQuestionMessage t q s) o p).1) := by
  refine ⟨?_, ?_, ?_⟩
  · intro st t q s o p h
    unfold process_incoming_websocket_notification
    rw [h]
  · intro st t q s o p h
    unfold process_incoming_websocket_notification
    rw [h]
    simp
  · intro st t q s o p c h hc
    unfold process_incoming_websocket_notification
    rw [h]
    exact ⟨dictLookup_insert_self c t _, by simp [hc]⟩

/-- Claim C2, witness: task "t" registered to chat 5 gets its pending
entry set. -/
theorem process_notification_discard_and_set_witness :
    dictLookup "t" regFiveState.task_to_chat_mapping = some 5 ∧ (5 : Int) ≠ 0
    ∧ dictLookup 5 (dictInsert 5 "t" regFiveState.pending_telegram_responses) = some "t" :=
  ⟨by decide, by decide,
    (process_notification_discard_and_set.2.2 regFiveState "t" "q" none TgOutcome.ok true 5
      (by decide) (by decide)).1⟩

/-- Claim C3, counterexample. The claim says every entry whose value is an
integer — including a negative one — survives the load. An entry with
value -5 is silently dropped, because `str(-5).isdigit()` is false. -/
theorem load_registrations_drops_negative_chat_id :
    load_registrations (some (PyJson.obj [("t", PyJson.int (-5))])) = [] := by decide

/-- Claim C3, amended: malformed JSON or non-object content yields an
empty mapping; for an object, an entry with integer value `n` is retained
iff `0 ≤ n` (negative chat ids are silently dropped), a boolean value is
always dropped, a digit-string value is retained as its parsed integer,
and the loaded mapping is exactly the entries passing this per-entry
filter. -/
theorem load_registrations_spec :
    load_registrations none = []
    ∧ (∀ j : PyJson, jsonIsObj j = false → load_registrations (some j) = [])
    ∧ (∀ (k : String) (n : Int), loadEntry k (PyJson.int n)
        = if 0 ≤ n then some (k, n) else none)
    ∧ (∀ (k : String) (b : Bool), loadEntry k (PyJson.bool b) = none)
    ∧ (∀ kvs, load_registrations (some (PyJson.obj kvs))
        = kvs.filterMap (fun pr => loadEntry pr.1 pr.2)) := by
  refine ⟨rfl, ?_, ?_, ?_, fun kvs => rfl⟩
  · intro j hj
    cases j <;> first | rfl | simp [jsonIsObj] at hj
  · intro k n
    have h : loadEntry k (PyJson.int n)
        = if pyIsdigit (pyStrOfInt n) then some (k, n) else none := rfl
    rw [h, pyIsdigit_pyStrOfInt]
    by_cases hn : 0 ≤ n <;> simp [hn]
  · intro k b
    cases b <;> rfl

/-- Claim C3, witness: a non-object top level loads as empty, and a
non-negative integer entry is kept. -/
theorem load_registrations_spec_witness :
    jsonIsObj (PyJson.list []) = false
    ∧ load_registrations (some (PyJson.list [])) = []
    ∧ loadEntry "t" (PyJson.int 7) = some ("t", 7) :=
  ⟨rfl, load_registrations_spec.2.1 (PyJson.list []) rfl, by
    have h := load_registrations_spec.2.2.1 "t" 7
    simpa using h⟩

/-- Claim C4. For any question with a non-empty suggestion list, the
formatted chat message contains the first 8 characters of the task id, the
question text, and each suggestion as a numbered line (using the
suggestion's "suggest" field text when it is a dict exposing that field,
its textual form otherwise), and it ends with the trailing call-to-action
line. -/
theorem format_message_contains_parts (task_id question : String)
    (l : List Suggestion) (hne : l ≠ []) (j : Nat) (hj : j < l.length) :
    strContains (formatQuestionMessage task_id question (some l)) (task_id.take 8)
    ∧ strContains (formatQuestionMessage task_id question (some l)) question
    ∧ strContains (formatQuestionMessage task_id question (some l))
        (numberedLine (j + 1) (l.get ⟨j, hj⟩))
    ∧ strEndsWith (formatQuestionMessage task_id question (some l))
        "\n\nPlease reply with your answer." := by
  have hni : l.isEmpty = false := by
    cases l with
    | nil => cases hne rfl
    | cons a rest => rfl
  have hmsg : formatQuestionMessage task_id question (some l)
      = ("Roo-Code Task (" ++ task_id.take 8 ++ "...):\n\n" ++ question
          ++ "\n\nSuggestions:" ++ suggestionsBlock 0 l)
        ++ "\n\nPlease reply with your answer." := by
    unfold formatQuestionMessage
    dsimp only
    rw [hni]
    simp
  rw [hmsg]
  refine ⟨?_, ?_, ?_, strEndsWith_append _ _⟩
  · exact strContains_appendL _ (strContains_appendL _ (strContains_appendL _
      (strContains_appendL _ (strContains_appendL _
        (strContains_appendR _ (strContains_refl _))))))
  · exact strContains_appendL _ (strContains_appendL _ (strContains_appendL _
      (strContains_appendR _ (strContains_refl _))))
  · have hb := suggestionsBlock_contains l 0 j hj
    rw [Nat.zero_add] at hb
    exact strContains_appendL _ (strContains_appendR _ hb)

/-- Claim C4, witness: the spec's scenario, task "abc123" with
suggestions ["yes", "no"]. -/
theorem format_message_contains_parts_witness :
    demoSuggestions ≠ [] ∧ 1 < demoSuggestions.length
    ∧ strContains (formatQuestionMessage "abc123" "Proceed?" (some demoSuggestions))
        ("abc123".take 8)
    ∧ strContains (formatQuestionMessage "abc123" "Proceed?" (some demoSuggestions))
        (numberedLine 2 (Suggestion.plain "no")) := by
  have h := format_message_contains_parts "abc123" "Proceed?" demoSuggestions
    (by decide) 1 (by decide)
  exact ⟨by decide, by decide, h.1, h.2.2.1⟩

/-- Claim C5. With a pending entry for the chat, a live, healthy socket
connection, and the deployed send function, the reply router reports
success, dispatches exactly the serialized reply envelope
`json.dumps({'type': 'reply', 'taskId': task_id, 'reply': response_text})`
as the single new frame, and leaves no pending entry for the chat. -/
theorem reply_success_dispatches_and_clears (st : SysState) (chat_id : Int)
    (response_text task_id : String) (o : TgOutcome) (p : Bool)
    (hwf : keysNodup st.pending_telegram_responses)
    (hp : dictLookup chat_id st.pending_telegram_responses = some task_id)
    (ha : st.ws.active = true) (hc : st.ws.connClosed = false) :
    (handle_telegram_response_deployed st chat_id response_text o p).2 = true
    ∧ (handle_telegram_response_deployed st chat_id response_text o p).1.ws.sent
        = st.ws.sent
          ++ [pyJsonDumps { type := "reply", taskId := task_id, reply := response_text }]
    ∧ dictLookup chat_id
        (handle_telegram_response_deployed st chat_id
          response_text o p).1.pending_telegram_responses
        = none := by
  unfold handle_telegram_response_deployed handle_telegram_response
  rw [hp]
  dsimp only
  simp only [send_websocket_message, ha, hc]
  refine ⟨rfl, rfl, ?_⟩
  exact dictLookup_erase_self chat_id st.pending_telegram_responses hwf

/-- Claim C5, witness: the spec's scenario — pending task "abc123" on
chat 555, reply "Hello". -/
theorem reply_success_dispatches_and_clears_witness :
    keysNodup activeReplyState.pending_telegram_responses
    ∧ dictLookup 555 activeReplyState.pending_telegram_responses = some "abc123"
    ∧ (handle_telegram_response_deployed activeReplyState 555 "Hello" TgOutcome.ok true).2 = true
    ∧ (handle_telegram_response_deployed activeReplyState 555 "Hello"
        TgOutcome.ok true).1.ws.sent
      = [] ++ [pyJsonDumps { type := "reply", taskId := "abc123", reply := "Hello" }]
    ∧ dictLookup 555 (handle_telegram_response_deployed activeReplyState 555 "Hello"
        TgOutcome.ok true).1.pending_telegram_responses = none := by
  have h := reply_success_dispatches_and_clears activeReplyState 555 "Hello" "abc123"
    TgOutcome.ok true (by decide) (by decide) rfl rfl
  exact ⟨by decide, by decide, h.1, h.2.1, h.2.2⟩

/-- Claim C6. `unregister_task(t)` returns false and leaves the state
unchanged when `t` is unregistered; when `t` is bound to chat `c` it
returns true, removes exactly that binding, and clears the pending entry
of `c` exactly when that entry references `t` itself — a pending entry for
`c` referencing a different task, and pending entries of other chats, are
untouched. -/
theorem unregister_task_spec (st : SysState) (t : String) (p : Bool)
    (hM : keysNodup st.task_to_chat_mapping)
    (hP : keysNodup st.pending_telegram_responses) :
    (dictLookup t st.task_to_chat_mapping = none → unregister_task st t p = (st, false))
    ∧ (∀ c, dictLookup t st.task_to_chat_mapping = some c →
        (unregister_task st t p).2 = true
        ∧ dictLookup t (unregister_task st t p).1.task_to_chat_mapping = none
        ∧ (∀ t2, t2 ≠ t → dictLookup t2 (unregister_task st t p).1.task_to_chat_mapping
            = dictLookup t2 st.task_to_chat_mapping)
        ∧ dictLookup c (unregister_task st t p).1.pending_telegram_responses
            = (if dictLookup c st.pending_telegram_responses = some t then none
               else dictLookup c st.pending_telegram_responses)
        ∧ (∀ c2, c2 ≠ c → dictLookup c2 (unregister_task st t p).1.pending_telegram_responses
            = dictLookup c2 st.pending_telegram_responses)) := by
  constructor
  · intro h
    unfold unregister_task
    rw [h]
  · intro c hc
    obtain ⟨hmap, hret⟩ := unregister_task_mapping st t p c hc
    have hpend := unregister_task_pending st t p c hc
    refine ⟨hret, ?_, ?_, ?_, ?_⟩
    · rw [hmap]
      exact dictLookup_erase_self t st.task_to_chat_mapping hM
    · intro t2 ht2
      rw [hmap]
      exact dictLookup_erase_ne t t2 st.task_to_chat_mapping ht2
    · rw [hpend]
      by_cases hcp : dictLookup c st.pending_telegram_responses = some t
      · rw [if_pos hcp, if_pos hcp]
        exact dictLookup_erase_self c st.pending_telegram_responses hP
      · rw [if_neg hcp, if_neg hcp]
    · intro c2 hc2
      rw [hpend]
      by_cases hcp : dictLookup c st.pending_telegram_responses = some t
      · rw [if_pos hcp]
        exact dictLookup_erase_ne c c2 st.pending_telegram_responses hc2
      · rw [if_neg hcp]

/-- Claim C6, witness: unregistering "t1" (bound to chat 5, with a pending
question referencing it) succeeds and clears both the binding and the
pending entry. -/
theorem unregister_task_spec_witness :
    keysNodup unregisterDemoState.task_to_chat_mapping
    ∧ keysNodup unregisterDemoState.pending_telegram_responses
    ∧ dictLookup "t1" unregisterDemoState.task_to_chat_mapping = some 5
    ∧ (unregister_task unregisterDemoState "t1" true).2 = true
    ∧ dictLookup "t1" (unregister_task unregisterDemoState "t1" true).1.task_to_chat_mapping
        = none
    ∧ dictLookup 5 (unregister_task unregisterDemoState "t1" true).1.pending_telegram_responses
        = (if dictLookup 5 unregisterDemoState.pending_telegram_responses = some "t1" then none
           else dictLookup 5 unregisterDemoState.pending_telegram_responses) := by
  have h := (unregister_task_spec unregisterDemoState "t1" true (by decide) (by decide)).2
    5 (by decide)
  exact ⟨by decide, by decide, by decide, h.1, h.2.1, h.2.2.2.1⟩

/-- Claim C7. For any sequence of `register(t, c)` calls with the same
task id, `lookup(t)` afterwards resolves to exactly the chat id of the
last call, whatever each call's persist outcome; and a register's
in-memory effect is identical whether the synchronous persist step
succeeds or fails. -/
theorem register_last_wins :
    (∀ (st : SysState) (t : String) (calls : List (Int × Bool)) (c : Int) (p : Bool),
      dictLookup t (registerSeq st t (calls ++ [(c, p)])).task_to_chat_mapping = some c)
    ∧ (∀ (st : SysState) (t : String) (c : Int),
      (register_task_for_chat st t c true).task_to_chat_mapping
        = (register_task_for_chat st t c false).task_to_chat_mapping) := by
  constructor
  · intro st t calls c p
    rw [registerSeq, List.foldl_append]
    have hmap : ∀ (s : SysState) (c2 : Int) (p2 : Bool),
        (register_task_for_chat s t c2 p2).task_to_chat_mapping
          = dictInsert t c2 s.task_to_chat_mapping := by
      intro s c2 p2
      cases p2 <;> rfl
    simp [List.foldl, hmap, dictLookup_insert_self]
  · intro st t c
    rfl

/-- Claim C8. The socket transport stores at most one endpoint (the slot
is an `Option`): a second connection attempt while one is active is
rejected (closed with a reason) and the stored endpoint is unchanged, so
the new connection never becomes the stored endpoint; any termination of
the active connection's read loop — normal close, error, or unexpected
exception — clears the stored endpoint; and a connection arriving on an
empty slot is accepted and stored. -/
theorem ws_single_connection_spec :
    (∀ a b, ws_handler_connect (some a) b = (some a, false))
    ∧ (∀ w r, ws_handler_disconnect (some w) w r = none)
    ∧ (∀ w, ws_handler_connect none w = (some w, true)) := by
  refine ⟨fun a b => rfl, fun w r => ?_, fun w => rfl⟩
  simp [ws_handler_disconnect]

/-- Claim C9. When a Telegram delivery fails with the permanent Forbidden
error for a chat, exactly the first task bound to that chat (in insertion
order, as `find?` locates it) is unregistered: its binding disappears and
every other task's binding is unchanged, so further tasks bound to the
same chat stay registered; the send reports failure. -/
theorem forbidden_unregisters_first_binding (st : SysState) (chat_id : Int)
    (message : String) (p : Bool) (fp : String × Int)
    (hM : keysNodup st.task_to_chat_mapping)
    (hf : st.task_to_chat_mapping.find? (fun q => q.2 == chat_id) = some fp) :
    (send_telegram_message st chat_id message TgOutcome.forbidden p).2 = false
    ∧ dictLookup fp.1
        (send_telegram_message st chat_id message
          TgOutcome.forbidden p).1.task_to_chat_mapping
        = none
    ∧ (∀ t2, t2 ≠ fp.1 →
        dictLookup t2
          (send_telegram_message st chat_id message
            TgOutcome.forbidden p).1.task_to_chat_mapping
        = dictLookup t2 st.task_to_chat_mapping) := by
  have hmem : fp ∈ st.task_to_chat_mapping := List.mem_of_find?_eq_some hf
  have hlook : dictLookup fp.1 st.task_to_chat_mapping = some fp.2 :=
    dictLookup_of_mem fp.1 fp.2 st.task_to_chat_mapping hM hmem
  obtain ⟨hmap, _⟩ := unregister_task_mapping st fp.1 p fp.2 hlook
  unfold send_telegram_message
  rw [hf]
  refine ⟨rfl, ?_, ?_⟩
  · rw [hmap]
    exact dictLookup_erase_self fp.1 st.task_to_chat_mapping hM
  · intro t2 ht2
    rw [hmap]
    exact dictLookup_erase_ne fp.1 t2 st.task_to_chat_mapping ht2

/-- Claim C9, witness: tasks "a" and "b" both bound to chat 7; the
Forbidden failure unregisters "a" (found first) and leaves "b" bound. -/
theorem forbidden_unregisters_first_binding_witness :
    keysNodup forbiddenDemoState.task_to_chat_mapping
    ∧ forbiddenDemoState.task_to_chat_mapping.find? (fun q => q.2 == 7) = some ("a", 7)
    ∧ (send_telegram_message forbiddenDemoState 7 "m" TgOutcome.forbidden true).2 = false
    ∧ dictLookup "a"
        (send_telegram_message forbiddenDemoState 7 "m"
          TgOutcome.forbidden true).1.task_to_chat_mapping = none
    ∧ dictLookup "b"
        (send_telegram_message forbiddenDemoState 7 "m"
          TgOutcome.forbidden true).1.task_to_chat_mapping = some 7 := by
  have h := forbidden_unregisters_first_binding forbiddenDemoState 7 "m" true ("a", 7)
    (by decide) (by decide)
  refine ⟨by decide, by decide, h.1, h.2.1, ?_⟩
  have h2 := h.2.2 "b" (by decide)
  rw [h2]
  decide

/-- Claim C10. A "followup" frame whose taskId or question is missing or
empty (falsy) is discarded: the system state — registrations, pending
entries, delivered Telegram messages, and the socket connection state —
is completely unchanged, so the connection stays open; and a frame with an
empty-but-present question is processed identically to one with the
question missing. -/
theorem followup_missing_fields_discarded (st : SysState) (f : WireFrame)
    (o : TgOutcome) (p : Bool)
    (h : pyTruthy f.taskId? = false ∨ pyTruthy f.question? = false) :
    websocket_handle_frame st f o p = st
    ∧ websocket_handle_frame st { f with question? := some "" } o p
      = websocket_handle_frame st { f with question? := none } o p := by
  constructor
  · by_cases ht : f.type? = some "followup"
    · rcases h with h | h <;> simp [websocket_handle_frame, ht, h]
    · simp [websocket_handle_frame, ht]
  · by_cases ht : f.type? = some "followup"
    · simp [websocket_handle_frame, ht, pyTruthy]
    · simp [websocket_handle_frame, ht]

/-- Claim C10, witness: a followup frame with an empty question is
discarded and behaves as if the question were missing. -/
theorem followup_missing_fields_discarded_witness :
    pyTruthy missingQuestionFrame.question? = false
    ∧ websocket_handle_frame chatZeroState missingQuestionFrame TgOutcome.ok true
        = chatZeroState
    ∧ websocket_handle_frame chatZeroState
        { missingQuestionFrame with question? := some "" } TgOutcome.ok true
      = websocket_handle_frame chatZeroState
        { missingQuestionFrame with question? := none } TgOutcome.ok true := by
  have h := followup_missing_fields_discarded chatZeroState missingQuestionFrame
    TgOutcome.ok true (Or.inr (by decide))
  exact ⟨by decide, h.1, h.2⟩
